import Mathlib

/-!
Shallow embedding of the D2L Brightspace classlist scraper
(src/bs-classlist/bs-classlist.py) and verification of its specification.

Browser/DOM primitives (Selenium waits, clicks, page capture) are external
collaborators; they are modelled by environment records whose fields give the
outcome of each primitive interaction (whether an element appeared within its
timeout, the result of a click, the cell texts of a table row, ...).  The
control flow of the Python methods — guards, retry loops, exception handling
and re-wrapping — is translated faithfully.
-/

/-- Exception kinds raised by the scraper, mirroring the Python exception
classes (TimeoutException, NoSuchElementException, ValueError,
AuthenticationError, NavigationError, D2LScraperException). -/
inductive PyError where
  | timeout
  | noSuchElement
  | valueError (msg : String)
  | authError (msg : String)
  | navError (msg : String)
  | scraperException (msg : String)
  deriving DecidableEq

/-- The message carried by an exception, modelling Python `str(e)`. -/
def PyError.message : PyError → String
  | .timeout => "Timeout"
  | .noSuchElement => "NoSuchElement"
  | .valueError m => m
  | .authError m => m
  | .navError m => m
  | .scraperException m => m

/-- Result of Python `urlparse` on the course URL: the components the scraper
reads (`scheme`, `netloc`, `path`).  `urlparse` itself is Python stdlib, an
external collaborator. -/
structure ParsedUrl where
  scheme : String
  netloc : String
  path : String
  deriving DecidableEq

/-- The fixed classlist URL prefix
`{scheme}://{netloc}/d2l/lms/classlist/classlist.d2l`. -/
def classlistBase (u : ParsedUrl) : String :=
  u.scheme ++ "://" ++ u.netloc ++ "/d2l/lms/classlist/classlist.d2l"

/-- Python `str.split('/')` on a character list: split on every `/`,
keeping empty pieces (so `"".split('/') == ['']`). -/
def splitSlashes : List Char → List (List Char)
  | [] => [[]]
  | c :: cs =>
    let r := splitSlashes cs
    if c = '/' then [] :: r
    else
      match r with
      | [] => [[c]]
      | g :: gs => (c :: g) :: gs

/-- `parsed_url.path.rstrip('/').split('/')` from `_infer_classlist_url`. -/
def pathParts (u : ParsedUrl) : List String :=
  (splitSlashes ((u.path.data.reverse.dropWhile (fun c => c = '/')).reverse)).map
    (fun cs => String.mk cs)

/-- Python `'ou' in path_parts` combined with `path_parts.index('ou')`:
the index of the first occurrence of `"ou"`, if any. -/
def indexOfOu : List String → Option Nat
  | [] => none
  | s :: rest => if s = "ou" then some 0 else (indexOfOu rest).map (fun i => i + 1)

/-- `D2LClasslistScraper._infer_classlist_url`: if an `ou` path segment with a
following segment exists, substitute that following segment into the query
template; otherwise return the template URL without the query parameter. -/
def infer_classlist_url (u : ParsedUrl) : String :=
  let parts := pathParts u
  match indexOfOu parts with
  | some i =>
    if i + 1 < parts.length then
      classlistBase u ++ "?ou=" ++ parts.getD (i + 1) ""
    else
      classlistBase u
  | none => classlistBase u

/-- `D2LClasslistScraper._validate_url`: scheme and netloc must be non-empty
and the scheme must be http or https, else a `ValueError` is raised. -/
def validate_url (u : ParsedUrl) : Except PyError Unit :=
  if u.scheme = "" ∨ u.netloc = "" then
    Except.error (PyError.valueError "Invalid URL. Must include scheme (http/https) and domain")
  else if u.scheme ≠ "http" ∧ u.scheme ≠ "https" then
    Except.error (PyError.valueError "URL must use HTTP or HTTPS protocol")
  else
    Except.ok ()

/-- The scraper object state set up by `D2LClasslistScraper.__init__`. -/
structure D2LClasslistScraper where
  course_url : ParsedUrl
  classlist_url : String
  show_browser : Bool
  deriving DecidableEq

/-- `D2LClasslistScraper.__init__`: validate the URL, then store the course
URL and the derived classlist URL (computed once, at construction). -/
def mkScraper (course_url : ParsedUrl) (show_browser : Bool) :
    Except PyError D2LClasslistScraper :=
  match validate_url course_url with
  | Except.error e => Except.error e
  | Except.ok _ =>
    Except.ok { course_url := course_url,
                classlist_url := infer_classlist_url course_url,
                show_browser := show_browser }

/-- The `StudentRecord` dataclass. -/
structure StudentRecord where
  last_name : String
  first_name : String
  username : String
  org_id : String
  email : String
  role : String
  last_accessed : String
  deriving DecidableEq

/-- Python `name_cell.split(',', 1)` on a character list: split at the first
comma only (the comma is present in every call site, guarded by the
`',' not in name_cell` check). -/
def splitAtFirstComma : List Char → List Char × List Char
  | [] => ([], [])
  | c :: cs =>
    if c = ',' then ([], cs)
    else
      let p := splitAtFirstComma cs
      (c :: p.1, p.2)

/-- Python `str.strip()`: drop leading and trailing whitespace. -/
def stripChars (l : List Char) : List Char :=
  ((l.dropWhile Char.isWhitespace).reverse.dropWhile Char.isWhitespace).reverse

/-- One iteration of the row loop of `parse_classlist`, up to the record
construction: a row is represented by the stripped text of its `td`/`th`
cells.  Returns `none` when the row is skipped (fewer than 8 cells, or an
empty or comma-free name cell), and the constructed `StudentRecord`
otherwise. -/
def rowRecord (cells : List String) : Option StudentRecord :=
  if 8 ≤ cells.length then
    let nameCell := cells.getD 2 ""
    if nameCell = "" ∨ ',' ∉ nameCell.data then none
    else
      let p := splitAtFirstComma nameCell.data
      some { last_name := String.mk (stripChars p.1),
             first_name := String.mk (stripChars p.2),
             username := cells.getD 3 "",
             org_id := cells.getD 4 "",
             email := cells.getD 5 "",
             role := cells.getD 6 "",
             last_accessed := cells.getD 7 "" }
  else none

/-- Python `all(vars(student).values())`: every field is a non-empty
(truthy) string. -/
def StudentRecord.isComplete (s : StudentRecord) : Bool :=
  s.last_name != "" && s.first_name != "" && s.username != "" &&
  s.org_id != "" && s.email != "" && s.role != "" && s.last_accessed != ""

/-- The full row loop of `parse_classlist`: build a record per row, skip
invalid rows, and append a constructed record only when all of its fields
are non-empty, preserving row order. -/
def parseRows : List (List String) → List StudentRecord
  | [] => []
  | cells :: rest =>
    match rowRecord cells with
    | some s => if s.isComplete then s :: parseRows rest else parseRows rest
    | none => parseRows rest

/-- The rendered page as seen by one `parse_classlist` attempt: either the
table with class `d2l-table d2l-grid d_gl` is absent, or it is present with
its list of `tr` rows (each row a list of stripped cell texts). -/
inductive Page where
  | noTable
  | table (rows : List (List String))

/-- One attempt of the `parse_classlist` loop body after the initial sleep:
missing table and missing data rows raise `ValueError`; otherwise the row
loop runs (the first `tr` is the header and is dropped). -/
def attemptParse (p : Page) : Except String (List StudentRecord) :=
  match p with
  | Page.noTable => Except.error "Classlist table not found"
  | Page.table trs =>
    let rows := trs.drop 1
    if rows.isEmpty then Except.error "No student rows found"
    else Except.ok (parseRows rows)

/-- Timed events of the retry loops: sleeps (in time units) and the start of
each parse / click attempt. -/
inductive Step where
  | sleep (units : ℚ)
  | parseAttempt (i : Nat)
  | clickAttempt (i : Nat)
  deriving DecidableEq

/-- The retry loop of `parse_classlist`.  `attempt` is the current loop
index, the final argument the number of remaining iterations (`retries -
attempt`), `students` the accumulator declared before the loop.  Each
iteration sleeps 2 units, parses the page of that attempt, breaks as soon as
the accumulated list is non-empty, and on an exception either re-raises
`ValueError("Failed to parse classlist: ...")` (last attempt) or sleeps 2
more units and continues.  When the loop ends, the accumulated list is
returned as-is. -/
def parseGo (pages : Nat → Page) (attempt : Nat) (students : List StudentRecord) :
    Nat → List Step × Except PyError (List StudentRecord)
  | 0 => ([], Except.ok students)
  | rem + 1 =>
    match attemptParse (pages attempt) with
    | Except.ok newStudents =>
      let students2 := students ++ newStudents
      if students2.isEmpty then
        let r := parseGo pages (attempt + 1) students2 rem
        (Step.sleep 2 :: Step.parseAttempt attempt :: r.1, r.2)
      else
        ([Step.sleep 2, Step.parseAttempt attempt], Except.ok students2)
    | Except.error e =>
      if rem = 0 then
        ([Step.sleep 2, Step.parseAttempt attempt],
         Except.error (PyError.valueError ("Failed to parse classlist: " ++ e)))
      else
        let r := parseGo pages (attempt + 1) students rem
        (Step.sleep 2 :: Step.parseAttempt attempt :: Step.sleep 2 :: r.1, r.2)

/-- `D2LClasslistScraper.parse_classlist`: the retry loop with
`retries = 3`, starting from an empty accumulator, over a (possibly
re-rendered) page per attempt.  Returns the timed trace and the outcome. -/
def parse_classlist (pages : Nat → Page) :
    List Step × Except PyError (List StudentRecord) :=
  parseGo pages 0 [] 3

/-- The step of `get_classlist` that consumes the parse result: a raised
error propagates, and an empty roster is converted into
`D2LScraperException("No student data extracted")`. -/
def get_classlist (pages : Nat → Page) : Except PyError (List StudentRecord) :=
  match (parse_classlist pages).2 with
  | Except.error e => Except.error e
  | Except.ok students =>
    if students.isEmpty then
      Except.error (PyError.scraperException "No student data extracted")
    else Except.ok students

/-- Checks that every parse attempt in a trace is immediately preceded by a
2-time-unit sleep. -/
def pausedAttempts : List Step → Bool
  | [] => true
  | Step.parseAttempt _ :: _ => false
  | Step.sleep u :: Step.parseAttempt _ :: rest => (u == 2) && pausedAttempts rest
  | _ :: rest => pausedAttempts rest

/-- One half, as a literal rational (kept in constructor form so that traces
evaluate by kernel reduction); this is the 0.5-time-unit scroll-settling
pause of `wait_and_click`. -/
def half : ℚ := Rat.mk' 1 2 (by decide) (by decide)

/-- Outcome of `element.click()` on a given attempt: success, or one of the
two transient exceptions caught by `wait_and_click`
(`ElementClickInterceptedException`, `StaleElementReferenceException`). -/
inductive ClickOutcome where
  | success
  | intercepted
  | stale
  deriving DecidableEq

/-- The retry loop of `wait_and_click`, for an element that is found and
clickable on every attempt (`element i` is the outcome of the click on the
i-th attempt).  `attempt` is the loop index, the final argument the number
of remaining iterations.  Each iteration scrolls, sleeps 0.5 units, clicks,
and on a transient exception either re-raises it (last attempt, result
`false`) or sleeps 1 unit and retries.  An empty loop (`retries = 0`)
returns normally. -/
def waitAndClickGo (element : Nat → ClickOutcome) (attempt : Nat) :
    Nat → List Step × Bool
  | 0 => ([], true)
  | rem + 1 =>
    match element attempt with
    | ClickOutcome.success =>
      ([Step.sleep half, Step.clickAttempt attempt], true)
    | _ =>
      if rem = 0 then
        ([Step.sleep half, Step.clickAttempt attempt], false)
      else
        let r := waitAndClickGo element (attempt + 1) rem
        (Step.sleep half :: Step.clickAttempt attempt :: Step.sleep 1 :: r.1, r.2)

/-- `D2LClasslistScraper.wait_and_click` for a locatable element: run the
retry loop from attempt 0.  The boolean is `true` when the method returns
normally and `false` when it re-raises the transient exception after
exhausting the retry budget. -/
def wait_and_click (element : Nat → ClickOutcome) (retries : Nat) :
    List Step × Bool :=
  waitAndClickGo element 0 retries

/-- Models whether an element whose rendering completes after `appearTime`
time units (never, when `none`) is found by a wait bounded by `timeout`. -/
def waitFindSucceeds (appearTime : Option Nat) (timeout : Nat) : Bool :=
  match appearTime with
  | some t => t ≤ timeout
  | none => false

/-- Environment of one `login` run: the outcome of each browser-driven
primitive of the authentication flow. -/
structure LoginEnv where
  emailStage : Except PyError Unit
  passwordStage : Except PyError Unit
  mfaProofsAppear : Bool
  mfaOptions : List String
  mfaChoiceInput : Except PyError Int
  mfaOptionClick : Except PyError Unit
  otcFieldAppears : Bool
  submitAppears : Bool
  staySignedInTime : Option Nat
  staySignedInClick : Except PyError Unit
  d2lSelectorAppears : String → Bool

/-- Body of the MFA `try` block of `login`: wait for the proof-selection
container (30 units), enumerate the MFA options, fail with
`AuthenticationError` when none exist, read and range-check the user's
choice, click it, wait for the code field (30 units) and the submit
control (10 units). -/
def mfaStageBody (env : LoginEnv) : Except PyError Unit :=
  if env.mfaProofsAppear = false then Except.error PyError.timeout
  else if env.mfaOptions.isEmpty then
    Except.error (PyError.authError "No MFA options found")
  else
    match env.mfaChoiceInput with
    | Except.error e => Except.error e
    | Except.ok n =>
      let choice : Int := n - 1
      if choice < 0 ∨ (env.mfaOptions.length : Int) ≤ choice then
        Except.error (PyError.valueError "Invalid MFA option selected")
      else
        match env.mfaOptionClick with
        | Except.error e => Except.error e
        | Except.ok _ =>
          if env.otcFieldAppears = false then Except.error PyError.timeout
          else if env.submitAppears = false then Except.error PyError.timeout
          else Except.ok ()

/-- The MFA block with its two `except` clauses: a `TimeoutException`
becomes `AuthenticationError("MFA process failed")` and a `ValueError`
becomes `AuthenticationError("MFA selection failed: ...")`; any other
exception propagates. -/
def mfaStage (env : LoginEnv) : Except PyError Unit :=
  match mfaStageBody env with
  | Except.error PyError.timeout =>
    Except.error (PyError.authError "MFA process failed")
  | Except.error (PyError.valueError m) =>
    Except.error (PyError.authError ("MFA selection failed: " ++ m))
  | r => r

/-- The "Stay signed in?" block of `login`: wait up to 10 units for the
prompt; when it appears, click it (whose failure propagates); when the wait
times out, proceed without error. -/
def staySignedInStage (env : LoginEnv) : Except PyError Unit :=
  if waitFindSucceeds env.staySignedInTime 10 then env.staySignedInClick
  else Except.ok ()

/-- The fixed, ordered `success_elements` selector list of `login`. -/
def successElements : List String :=
  ["div.d2l-navigation-s-main-wrapper",
   "div.d2l-branding-navigation-dark-foreground-color",
   "nav.d2l-navigation-s",
   "d2l-navigation-main-header"]

/-- The load-verification loop of `login`: probe the selectors in order,
returning `True` at the first that appears within its 30-unit window; when
all time out, raise `AuthenticationError`. -/
def loadVerification (appears : String → Bool) : List String → Except PyError Bool
  | [] => Except.error (PyError.authError "Failed to verify successful login to D2L")
  | s :: rest => if appears s then Except.ok true else loadVerification appears rest

/-- The body of `login` inside its top-level `try`: email entry, password
entry, MFA block, optional "stay signed in" prompt, then load
verification. -/
def loginBody (env : LoginEnv) : Except PyError Bool :=
  match env.emailStage with
  | Except.error e => Except.error e
  | Except.ok _ =>
    match env.passwordStage with
    | Except.error e => Except.error e
    | Except.ok _ =>
      match mfaStage env with
      | Except.error e => Except.error e
      | Except.ok _ =>
        match staySignedInStage env with
        | Except.error e => Except.error e
        | Except.ok _ => loadVerification env.d2lSelectorAppears successElements

/-- `D2LClasslistScraper.login`: the whole body runs under a top-level
`except Exception` clause that re-wraps any failure as
`AuthenticationError(f"Login failed: {str(e)}")`. -/
def login (env : LoginEnv) : Except PyError Bool :=
  match loginBody env with
  | Except.ok b => Except.ok b
  | Except.error e =>
    Except.error (PyError.authError ("Login failed: " ++ e.message))

/-- Environment of one `navigate_to_classlist` run. -/
structure NavEnv where
  directTableTime : Option Nat
  navGroupClick : Except PyError Unit
  selectorClick : String → Except PyError Unit
  tableTimeAfter : String → Option Nat

/-- The fixed, ordered `classlist_selectors` list of
`navigate_to_classlist`: link-text match, menu-item text match, and
href-substring match. -/
def classlistSelectors : List String :=
  ["//a[contains(text(), \x27Classlist\x27)]",
   "//d2l-menu-item-link[contains(@text, \x27Classlist\x27)]",
   "//a[contains(@href, \x27classlist.d2l\x27)]"]

/-- The fallback selector loop of `navigate_to_classlist`: try each selector
in order with a 5-unit click timeout; a `TimeoutException` or
`NoSuchElementException` from the click, or a missing roster table after a
successful click (10-unit wait), moves on to the next selector; any other
click failure propagates; exhausting the list raises `NavigationError`. -/
def trySelectors (env : NavEnv) : List String → Except PyError Unit
  | [] => Except.error (PyError.navError "Could not access classlist page")
  | s :: rest =>
    match env.selectorClick s with
    | Except.ok _ =>
      if waitFindSucceeds (env.tableTimeAfter s) 10 then Except.ok ()
      else trySelectors env rest
    | Except.error PyError.timeout => trySelectors env rest
    | Except.error PyError.noSuchElement => trySelectors env rest
    | Except.error e => Except.error e

/-- Body of `navigate_to_classlist` inside its top-level `try`: load the
derived classlist URL and return as soon as the `d2l-table` marker appears
within 10 units; otherwise reload the course URL, click the navigation-group
control, and run the fallback selector loop. -/
def navigateBody (env : NavEnv) : Except PyError Unit :=
  if waitFindSucceeds env.directTableTime 10 then Except.ok ()
  else
    match env.navGroupClick with
    | Except.error e => Except.error e
    | Except.ok _ => trySelectors env classlistSelectors

/-- `D2LClasslistScraper.navigate_to_classlist`: the whole body runs under a
top-level `except Exception` clause that re-wraps any failure as
`NavigationError(f"Failed to navigate to classlist: {str(e)}")`. -/
def navigate_to_classlist (env : NavEnv) : Except PyError Unit :=
  match navigateBody env with
  | Except.ok _ => Except.ok ()
  | Except.error e =>
    Except.error (PyError.navError ("Failed to navigate to classlist: " ++ e.message))

/-- Page whose roster table is present with one header row and one 5-cell
data row: every attempt parses without an exception but yields no record. -/
def emptyParsePages : Nat → Page := fun _ => Page.table [["h"], ["a", "b", "c", "d", "e"]]

/-- Page with no roster table at all: every attempt raises. -/
def noTablePages : Nat → Page := fun _ => Page.noTable

/-- Page whose table has a header row and a row with an empty email cell. -/
def droppedRowPages : Nat → Page :=
  fun _ => Page.table [["h"], ["1", "pic", "Poe, Ann", "apoe", "9", "", "Student", "Dec 3, 2024"]]

/-- Course URL used to witness the URL-derivation claim. -/
def witnessUrl : ParsedUrl := ⟨"https", "example.com", "/content/ou/98765/home"⟩

/-- Course URL whose first `ou` segment is also the last path segment. -/
def witnessUrlOuLast : ParsedUrl := ⟨"https", "example.com", "/x/ou"⟩

/-- An element whose click always succeeds (succeeds on attempt 1, raising
on its first 0 attempts). -/
def alwaysClickable : Nat → ClickOutcome := fun _ => ClickOutcome.success

/-- An element whose click raises a stale-reference error on its first 2
attempts and succeeds on the 3rd. -/
def staleTwiceElement : Nat → ClickOutcome :=
  fun i => if i < 2 then ClickOutcome.stale else ClickOutcome.success

/-- Login environment in which every stage up to the MFA container succeeds
but zero MFA option elements are found. -/
def envZeroMfa : LoginEnv :=
  { emailStage := Except.ok (), passwordStage := Except.ok (), mfaProofsAppear := true,
    mfaOptions := [], mfaChoiceInput := Except.ok 1, mfaOptionClick := Except.ok (),
    otcFieldAppears := true, submitAppears := true, staySignedInTime := none,
    staySignedInClick := Except.ok (), d2lSelectorAppears := fun _ => false }

/-- Login environment in which every stage succeeds, the "Stay signed in?"
prompt never appears, and the first load-verification selector renders. -/
def envHappyPath : LoginEnv :=
  { emailStage := Except.ok (), passwordStage := Except.ok (), mfaProofsAppear := true,
    mfaOptions := ["Text +X XXXXXXXX00"], mfaChoiceInput := Except.ok 1,
    mfaOptionClick := Except.ok (), otcFieldAppears := true, submitAppears := true,
    staySignedInTime := none, staySignedInClick := Except.ok (),
    d2lSelectorAppears := fun _ => true }

/-- Navigation environment in which the roster table marker appears 3 time
units after the direct URL load. -/
def envNavDirect : NavEnv :=
  { directTableTime := some 3, navGroupClick := Except.ok (),
    selectorClick := fun _ => Except.error PyError.timeout,
    tableTimeAfter := fun _ => none }

/-- Navigation environment in which the direct URL never shows the table
and every fallback selector click times out. -/
def envNavExhausted : NavEnv :=
  { directTableTime := none, navGroupClick := Except.ok (),
    selectorClick := fun _ => Except.error PyError.timeout,
    tableTimeAfter := fun _ => none }

/-!
Helper lemmas.
-/

theorem indexOfOu_getD {l : List String} {i : Nat} (h : indexOfOu l = some i) :
    i < l.length ∧ l.getD i "" = "ou" := by
  induction l generalizing i with
  | nil => simp [indexOfOu] at h
  | cons s rest ih =>
    by_cases hs : s = "ou"
    · simp [indexOfOu, hs] at h
      subst h
      simpa using hs
    · simp [indexOfOu, hs, Option.map_eq_some'] at h
      obtain ⟨i', hi', rfl⟩ := h
      obtain ⟨h1, h2⟩ := ih hi'
      exact ⟨by simpa using h1, by simpa using h2⟩

theorem indexOfOu_min {l : List String} {i : Nat} (h : indexOfOu l = some i) :
    ∀ j, j < i → l.getD j "" ≠ "ou" := by
  induction l generalizing i with
  | nil => simp [indexOfOu] at h
  | cons s rest ih =>
    by_cases hs : s = "ou"
    · simp [indexOfOu, hs] at h
      subst h
      omega
    · simp [indexOfOu, hs, Option.map_eq_some'] at h
      obtain ⟨i', hi', rfl⟩ := h
      intro j hj
      match j with
      | 0 => simpa using hs
      | j' + 1 =>
        simpa using ih hi' j' (by omega)

theorem indexOfOu_of_mem {l : List String} (h : "ou" ∈ l) :
    ∃ i, indexOfOu l = some i := by
  induction l with
  | nil => simp at h
  | cons s rest ih =>
    by_cases hs : s = "ou"
    · exact ⟨0, by simp [indexOfOu, hs]⟩
    · have hmem : "ou" ∈ rest := by
        rcases List.mem_cons.mp h with h1 | h1
        · exact absurd h1.symm hs
        · exact h1
      obtain ⟨i, hi⟩ := ih hmem
      exact ⟨i + 1, by simp [indexOfOu, hs, hi]⟩

theorem indexOfOu_of_not_mem {l : List String} (h : "ou" ∉ l) :
    indexOfOu l = none := by
  induction l with
  | nil => rfl
  | cons s rest ih =>
    have hs : s ≠ "ou" := fun hs => h (by simp [hs])
    have : "ou" ∉ rest := fun hm => h (List.mem_cons_of_mem _ hm)
    simp [indexOfOu, hs, ih this]

theorem infer_url_of_no_ou {u : ParsedUrl} (h : "ou" ∉ pathParts u) :
    infer_classlist_url u = classlistBase u := by
  simp only [infer_classlist_url]
  rw [indexOfOu_of_not_mem h]

/-!
Claim theorems.
-/

/-- C1: for every valid course URL whose path contains an `ou` segment
followed by an identifier segment, the derived classlist URL is the fixed
template with the identifier (the segment after the first `ou`) substituted;
for every valid course URL with no `ou` segment, the derived URL is the
template without the `?ou=` query parameter; and the value stored at
construction is exactly the pure function `infer_classlist_url` of the
input URL. -/
theorem classlist_url_derivation (u : ParsedUrl) (b : Bool) (s : D2LClasslistScraper)
    (hv : validate_url u = Except.ok ()) :
    (mkScraper u b = Except.ok s → s.classlist_url = infer_classlist_url u) ∧
    ((∃ j, j + 1 < (pathParts u).length ∧ (pathParts u).getD j "" = "ou") →
      ∃ i, i + 1 < (pathParts u).length ∧
        indexOfOu (pathParts u) = some i ∧
        infer_classlist_url u =
          classlistBase u ++ "?ou=" ++ (pathParts u).getD (i + 1) "") ∧
    ("ou" ∉ pathParts u → infer_classlist_url u = classlistBase u) := by
  refine ⟨?_, ?_, fun h => infer_url_of_no_ou h⟩
  · intro h
    unfold mkScraper at h
    rw [hv] at h
    simp only [Except.ok.injEq] at h
    rw [← h]
  · rintro ⟨j, hj, hval⟩
    have hjlt : j < (pathParts u).length := by omega
    have hmem : "ou" ∈ pathParts u := by
      rw [List.getD_eq_getElem _ _ hjlt] at hval
      rw [← hval]
      exact List.getElem_mem hjlt
    obtain ⟨i, hi⟩ := indexOfOu_of_mem hmem
    have hij : i ≤ j := by
      by_contra hc
      exact indexOfOu_min hi j (by omega) hval
    have hilt : i + 1 < (pathParts u).length := by omega
    refine ⟨i, hilt, hi, ?_⟩
    simp only [infer_classlist_url]
    rw [hi]
    simp [hilt]

/-- Witness for C1 at a concrete course URL with an `ou` segment. -/
theorem classlist_url_derivation_witness :
    ((D2LClasslistScraper.mk witnessUrl
        "https://example.com/d2l/lms/classlist/classlist.d2l?ou=98765"
        true).classlist_url = infer_classlist_url witnessUrl) ∧
    (∃ i, i + 1 < (pathParts witnessUrl).length ∧
      indexOfOu (pathParts witnessUrl) = some i ∧
      infer_classlist_url witnessUrl =
        classlistBase witnessUrl ++ "?ou=" ++ (pathParts witnessUrl).getD (i + 1) "") := by
  have h := classlist_url_derivation witnessUrl true
    ⟨witnessUrl, "https://example.com/d2l/lms/classlist/classlist.d2l?ou=98765", true⟩ rfl
  exact ⟨h.1 rfl, h.2.1 ⟨2, by decide, by decide⟩⟩

/-- C10 counterexample: in the course path `/ou/5/ou` the segment `ou` IS
the final path segment (no segment follows it), yet the derived classlist
URL is `...?ou=5` — not the fallback form — because the code uses the FIRST
`ou` segment, which here has a successor. -/
theorem trailing_ou_counterexample :
    (pathParts ⟨"https", "example.com", "/ou/5/ou"⟩).getLast? = some "ou" ∧
    infer_classlist_url ⟨"https", "example.com", "/ou/5/ou"⟩ =
      "https://example.com/d2l/lms/classlist/classlist.d2l?ou=5" ∧
    infer_classlist_url ⟨"https", "example.com", "/ou/5/ou"⟩ ≠
      classlistBase ⟨"https", "example.com", "/ou/5/ou"⟩ := by
  refine ⟨by decide, by decide, by decide⟩

/-- C10 (amended): if the FIRST `ou` segment of the course URL path is the
final segment (no identifier segment follows it), the derived classlist URL
is the fallback form without the `?ou=` query parameter — the same result as
when the `ou` segment is absent entirely. -/
theorem trailing_first_ou_fallback (u : ParsedUrl) (i : Nat)
    (h : indexOfOu (pathParts u) = some i)
    (hlast : i + 1 = (pathParts u).length) :
    infer_classlist_url u = classlistBase u ∧
    (∀ v : ParsedUrl, "ou" ∉ pathParts v → infer_classlist_url v = classlistBase v) := by
  refine ⟨?_, fun v hv => infer_url_of_no_ou hv⟩
  simp only [infer_classlist_url]
  rw [h]
  simp [hlast]

/-- Witness for the amended C10 at the concrete course path `/x/ou`. -/
theorem trailing_first_ou_fallback_witness :
    infer_classlist_url witnessUrlOuLast = classlistBase witnessUrlOuLast ∧
    (∀ v : ParsedUrl, "ou" ∉ pathParts v → infer_classlist_url v = classlistBase v) :=
  trailing_first_ou_fallback witnessUrlOuLast 2 (by decide) (by decide)

theorem splitAtFirstComma_append {pre : List Char} (post : List Char)
    (h : ',' ∉ pre) : splitAtFirstComma (pre ++ ',' :: post) = (pre, post) := by
  induction pre with
  | nil => simp [splitAtFirstComma]
  | cons c cs ih =>
    have hc : ¬(c = ',') := fun hc => h (by simp [hc])
    have hcs : ',' ∉ cs := fun hm => h (List.mem_cons_of_mem _ hm)
    simp [splitAtFirstComma, hc, ih hcs]

theorem isComplete_iff (s : StudentRecord) :
    s.isComplete = true ↔
      s.last_name ≠ "" ∧ s.first_name ≠ "" ∧ s.username ≠ "" ∧ s.org_id ≠ "" ∧
      s.email ≠ "" ∧ s.role ≠ "" ∧ s.last_accessed ≠ "" := by
  simp [StudentRecord.isComplete, Bool.and_eq_true, bne_iff_ne, and_assoc]

theorem isComplete_of_mem_parseRows {rows : List (List String)} {s : StudentRecord}
    (h : s ∈ parseRows rows) : s.isComplete = true := by
  induction rows with
  | nil => simp [parseRows] at h
  | cons c r ih =>
    rw [parseRows] at h
    rcases hr : rowRecord c with _ | t
    · simp only [hr] at h
      exact ih h
    · simp only [hr] at h
      by_cases hc : t.isComplete = true
      · rw [if_pos hc] at h
        rcases List.mem_cons.mp h with rfl | h2
        · exact hc
        · exact ih h2
      · rw [if_neg hc] at h
        exact ih h

/-- C2: a data row with fewer than 8 cells, or whose 3rd cell is empty or
comma-free, is skipped and contributes no record; otherwise the 3rd cell is
split at its first comma into last and first name (each stripped) and cells
4-8 map positionally to username, org id, email, role and last accessed;
and the produced records keep the original row order (the result is an
order-preserving filter-map of the rows). -/
theorem row_mapping (cells : List String) (rest rows : List (List String)) :
    (cells.length < 8 → parseRows (cells :: rest) = parseRows rest) ∧
    (8 ≤ cells.length → (cells.getD 2 "" = "" ∨ ',' ∉ (cells.getD 2 "").data) →
      parseRows (cells :: rest) = parseRows rest) ∧
    (∀ pre post : List Char, 8 ≤ cells.length → ',' ∉ pre →
      (cells.getD 2 "").data = pre ++ ',' :: post →
      rowRecord cells = some
        { last_name := String.mk (stripChars pre),
          first_name := String.mk (stripChars post),
          username := cells.getD 3 "",
          org_id := cells.getD 4 "",
          email := cells.getD 5 "",
          role := cells.getD 6 "",
          last_accessed := cells.getD 7 "" }) ∧
    parseRows rows = rows.filterMap (fun c =>
      match rowRecord c with
      | some s => if s.isComplete then some s else none
      | none => none) := by
  refine ⟨?_, ?_, ?_, ?_⟩
  · intro h
    have hr : rowRecord cells = none := by
      simp only [rowRecord]
      rw [if_neg (by omega)]
    rw [parseRows, hr]
  · intro h8 hguard
    have hr : rowRecord cells = none := by
      simp only [rowRecord]
      rw [if_pos h8, if_pos hguard]
    rw [parseRows, hr]
  · intro pre post h8 hpre hdata
    have hne : ¬(cells.getD 2 "" = "") := by
      intro h0
      rw [h0] at hdata
      simp at hdata
    have hmem : ',' ∈ (cells.getD 2 "").data := by
      rw [hdata]
      simp
    simp only [rowRecord]
    rw [if_pos h8, if_neg (by push_neg; exact ⟨hne, hmem⟩)]
    rw [hdata, splitAtFirstComma_append post hpre]
  · induction rows with
    | nil => rfl
    | cons c r ih =>
      rw [parseRows, List.filterMap_cons]
      rcases hr : rowRecord c with _ | t
      · simp only
        exact ih
      · simp only
        by_cases hc : t.isComplete = true
        · rw [if_pos hc, if_pos hc, ih]
        · rw [if_neg hc, if_neg hc, ih]

/-- Witness for C2 at a concrete well-formed 8-cell row. -/
theorem row_mapping_witness :
    rowRecord ["1", "pic", "Doe, Jane", "jdoe", "42", "jdoe@example.com", "Student", "Oct 1, 2024"] =
      some
        { last_name := String.mk (stripChars ['D', 'o', 'e']),
          first_name := String.mk (stripChars [' ', 'J', 'a', 'n', 'e']),
          username := (["1", "pic", "Doe, Jane", "jdoe", "42", "jdoe@example.com", "Student", "Oct 1, 2024"] : List String).getD 3 "",
          org_id := (["1", "pic", "Doe, Jane", "jdoe", "42", "jdoe@example.com", "Student", "Oct 1, 2024"] : List String).getD 4 "",
          email := (["1", "pic", "Doe, Jane", "jdoe", "42", "jdoe@example.com", "Student", "Oct 1, 2024"] : List String).getD 5 "",
          role := (["1", "pic", "Doe, Jane", "jdoe", "42", "jdoe@example.com", "Student", "Oct 1, 2024"] : List String).getD 6 "",
          last_accessed := (["1", "pic", "Doe, Jane", "jdoe", "42", "jdoe@example.com", "Student", "Oct 1, 2024"] : List String).getD 7 "" } :=
  (row_mapping ["1", "pic", "Doe, Jane", "jdoe", "42", "jdoe@example.com", "Student", "Oct 1, 2024"] [] []).2.2.1
    ['D', 'o', 'e'] [' ', 'J', 'a', 'n', 'e'] (by decide) (by decide) (by decide)

/-- C3: every record in any roster produced by the row loop has all seven
fields non-empty, and a constructed record with any empty field is dropped
from the result — its row contributes nothing — even though the row had at
least 8 cells. -/
theorem roster_completeness (rows : List (List String)) (s : StudentRecord)
    (cells : List String) (rest : List (List String)) :
    (s ∈ parseRows rows →
      s.last_name ≠ "" ∧ s.first_name ≠ "" ∧ s.username ≠ "" ∧ s.org_id ≠ "" ∧
      s.email ≠ "" ∧ s.role ≠ "" ∧ s.last_accessed ≠ "") ∧
    (rowRecord cells = some s → s.isComplete = false →
      8 ≤ cells.length ∧ parseRows (cells :: rest) = parseRows rest) := by
  constructor
  · intro h
    exact (isComplete_iff s).mp (isComplete_of_mem_parseRows h)
  · intro hr hinc
    constructor
    · by_contra h8
      have : rowRecord cells = none := by
        simp only [rowRecord]
        rw [if_neg h8]
      rw [this] at hr
      exact Option.noConfusion hr
    · rw [parseRows]
      simp only [hr]
      rw [if_neg (by simp [hinc])]

/-- Witness for C3 at a roster with one valid row and one row whose email
cell is empty. -/
theorem roster_completeness_witness :
    ((⟨"Doe", "Jane", "jdoe", "42", "jdoe@example.com", "Student", "Oct 1, 2024"⟩ : StudentRecord).last_name ≠ "" ∧
      (⟨"Doe", "Jane", "jdoe", "42", "jdoe@example.com", "Student", "Oct 1, 2024"⟩ : StudentRecord).first_name ≠ "" ∧
      (⟨"Doe", "Jane", "jdoe", "42", "jdoe@example.com", "Student", "Oct 1, 2024"⟩ : StudentRecord).username ≠ "" ∧
      (⟨"Doe", "Jane", "jdoe", "42", "jdoe@example.com", "Student", "Oct 1, 2024"⟩ : StudentRecord).org_id ≠ "" ∧
      (⟨"Doe", "Jane", "jdoe", "42", "jdoe@example.com", "Student", "Oct 1, 2024"⟩ : StudentRecord).email ≠ "" ∧
      (⟨"Doe", "Jane", "jdoe", "42", "jdoe@example.com", "Student", "Oct 1, 2024"⟩ : StudentRecord).role ≠ "" ∧
      (⟨"Doe", "Jane", "jdoe", "42", "jdoe@example.com", "Student", "Oct 1, 2024"⟩ : StudentRecord).last_accessed ≠ "") ∧
    (8 ≤ (["1", "pic", "Roe, Jon", "jroe", "7", "", "Student", "Nov 2, 2024"] : List String).length ∧
      parseRows [["1", "pic", "Roe, Jon", "jroe", "7", "", "Student", "Nov 2, 2024"]] = parseRows []) :=
  ⟨(roster_completeness [["1", "pic", "Doe, Jane", "jdoe", "42", "jdoe@example.com", "Student", "Oct 1, 2024"]]
      ⟨"Doe", "Jane", "jdoe", "42", "jdoe@example.com", "Student", "Oct 1, 2024"⟩ [] []).1 (by decide),
   (roster_completeness [] ⟨"Roe", "Jon", "jroe", "7", "", "Student", "Nov 2, 2024"⟩
      ["1", "pic", "Roe, Jon", "jroe", "7", "", "Student", "Nov 2, 2024"] []).2 (by decide) (by decide)⟩

theorem pausedAttempts_cons2 (a : Nat) (l : List Step) :
    pausedAttempts (Step.sleep 2 :: Step.parseAttempt a :: l) = pausedAttempts l := by
  simp [pausedAttempts]

theorem parseAttempt_mem_parseGo (pages : Nat → Page) :
    ∀ rem a st i, Step.parseAttempt i ∈ (parseGo pages a st rem).1 →
      a ≤ i ∧ i < a + rem := by
  intro rem
  induction rem with
  | zero =>
    intro a st i h
    simp [parseGo] at h
  | succ rem ih =>
    intro a st i h
    rw [parseGo] at h
    cases hp : attemptParse (pages a) with
    | ok ns =>
      simp only [hp] at h
      by_cases he : (st ++ ns).isEmpty
      · rw [if_pos he] at h
        simp only [List.mem_cons, List.not_mem_nil, or_false] at h
        rcases h with h | h | h
        · exact absurd h (by simp)
        · obtain rfl : i = a := by injection h
          omega
        · have := ih (a + 1) (st ++ ns) i h
          omega
      · rw [if_neg he] at h
        simp only [List.mem_cons, List.not_mem_nil, or_false] at h
        rcases h with h | h
        · exact absurd h (by simp)
        · obtain rfl : i = a := by injection h
          omega
    | error e =>
      simp only [hp] at h
      by_cases hr : rem = 0
      · rw [if_pos hr] at h
        simp only [List.mem_cons, List.not_mem_nil, or_false] at h
        rcases h with h | h
        · exact absurd h (by simp)
        · obtain rfl : i = a := by injection h
          omega
      · rw [if_neg hr] at h
        simp only [List.mem_cons, List.not_mem_nil, or_false] at h
        rcases h with h | h | h | h
        · exact absurd h (by simp)
        · obtain rfl : i = a := by injection h
          omega
        · exact absurd h (by simp)
        · have := ih (a + 1) st i h
          omega

theorem pausedAttempts_sleep2 {l : List Step} (h : pausedAttempts l = true) :
    pausedAttempts (Step.sleep 2 :: l) = true := by
  cases l with
  | nil => rfl
  | cons s r =>
    cases s with
    | sleep u => exact h
    | parseAttempt i =>
      rw [pausedAttempts] at h
      exact absurd h (by simp)
    | clickAttempt i => exact h

theorem pausedAttempts_parseGo (pages : Nat → Page) :
    ∀ rem a st, pausedAttempts (parseGo pages a st rem).1 = true := by
  intro rem
  induction rem with
  | zero => intro a st; rfl
  | succ rem ih =>
    intro a st
    rw [parseGo]
    cases hp : attemptParse (pages a) with
    | ok ns =>
      simp only [hp]
      by_cases he : (st ++ ns).isEmpty
      · rw [if_pos he]
        dsimp only
        rw [pausedAttempts_cons2]
        exact ih (a + 1) (st ++ ns)
      · rw [if_neg he]
        dsimp only
        rw [pausedAttempts_cons2]
        rfl
    | error e =>
      simp only [hp]
      by_cases hr : rem = 0
      · rw [if_pos hr]
        dsimp only
        rw [pausedAttempts_cons2]
        rfl
      · rw [if_neg hr]
        dsimp only
        rw [pausedAttempts_cons2]
        exact pausedAttempts_sleep2 (ih (a + 1) st)

theorem parseGo_step (pages : Nat → Page) (a rem : Nat) (hrem : rem ≠ 0)
    (h : attemptParse (pages a) = Except.ok [] ∨ ∃ m, attemptParse (pages a) = Except.error m) :
    (parseGo pages a [] (rem + 1)).2 = (parseGo pages (a + 1) [] rem).2 := by
  rw [parseGo]
  rcases h with h | ⟨m, h⟩
  · simp only [h]
    rw [if_pos (by simp)]
    simp
  · simp only [h]
    rw [if_neg hrem]

theorem parseGo_last_error (pages : Nat → Page) (a : Nat) (e : String)
    (h : attemptParse (pages a) = Except.error e) :
    (parseGo pages a [] 1).2 =
      Except.error (PyError.valueError ("Failed to parse classlist: " ++ e)) := by
  rw [parseGo]
  simp [h]

theorem parseGo_all_empty (pages : Nat → Page) :
    ∀ rem a, (∀ i, a ≤ i → i < a + rem → attemptParse (pages i) = Except.ok []) →
      (parseGo pages a [] rem).2 = Except.ok [] := by
  intro rem
  induction rem with
  | zero => intro a _; rfl
  | succ rem ih =>
    intro a h
    have h0 : attemptParse (pages a) = Except.ok [] := h a (le_refl a) (by omega)
    rw [parseGo]
    simp only [h0]
    rw [if_pos (by simp)]
    simp only [List.nil_append]
    exact ih (a + 1) (fun i h1 h2 => h i (by omega) (by omega))

/-- C4 counterexample: when every one of the 3 attempts finds the table and
a data row but produces zero records (here: a single 5-cell row), the final
attempt still has zero records yet `parse_classlist` raises nothing — it
returns the empty list (the error raised downstream is the caller's
`D2LScraperException`, not `ValueError("Failed to parse classlist")`). -/
theorem parse_retry_zero_records_counterexample :
    (∀ i, i < 3 → attemptParse (emptyParsePages i) = Except.ok []) ∧
    (parse_classlist emptyParsePages).2 = Except.ok [] ∧
    get_classlist emptyParsePages =
      Except.error (PyError.scraperException "No student data extracted") :=
  ⟨fun _ _ => rfl, rfl, rfl⟩

/-- C4 (amended): table extraction is attempted at most 3 times (a 4th
attempt never happens), each attempt is preceded by a 2-time-unit pause;
and when the first two attempts contribute no record and the third attempt
RAISES (table or data rows missing), the call fails with
`ValueError("Failed to parse classlist: ...")` carrying that attempt's
error.  (When all attempts complete without raising but yield zero records,
the empty list is returned instead — see the counterexample.) -/
theorem parse_retry_policy (pages : Nat → Page) :
    (∀ i, Step.parseAttempt i ∈ (parse_classlist pages).1 → i < 3) ∧
    pausedAttempts (parse_classlist pages).1 = true ∧
    (∀ e, (∀ i, i < 2 →
        attemptParse (pages i) = Except.ok [] ∨ ∃ m, attemptParse (pages i) = Except.error m) →
      attemptParse (pages 2) = Except.error e →
      (parse_classlist pages).2 =
        Except.error (PyError.valueError ("Failed to parse classlist: " ++ e))) := by
  refine ⟨?_, pausedAttempts_parseGo pages 3 0 [], ?_⟩
  · intro i h
    have := parseAttempt_mem_parseGo pages 3 0 [] i h
    omega
  · intro e hprev hlast
    have e1 : (parseGo pages 0 [] 3).2 = (parseGo pages 1 [] 2).2 :=
      parseGo_step pages 0 2 (by omega) (hprev 0 (by omega))
    have e2 : (parseGo pages 1 [] 2).2 = (parseGo pages 2 [] 1).2 :=
      parseGo_step pages 1 1 (by omega) (hprev 1 (by omega))
    have e3 := parseGo_last_error pages 2 e hlast
    exact (e1.trans e2).trans e3

/-- Witness for the amended C4: with no table on any attempt, exactly the
attempts 0, 1, 2 occur, each after a 2-unit pause, and the call fails with
the wrapped `ValueError`. -/
theorem parse_retry_policy_witness :
    (∀ i, Step.parseAttempt i ∈ (parse_classlist noTablePages).1 → i < 3) ∧
    pausedAttempts (parse_classlist noTablePages).1 = true ∧
    (parse_classlist noTablePages).2 =
      Except.error (PyError.valueError
        ("Failed to parse classlist: " ++ "Classlist table not found")) := by
  obtain ⟨h1, h2, h3⟩ := parse_retry_policy noTablePages
  exact ⟨h1, h2,
    h3 "Classlist table not found" (fun i _ => Or.inr ⟨"Classlist table not found", rfl⟩) rfl⟩

/-- C5: when every one of the 3 attempts finds the table and at least one
data row but every row is skipped or its record dropped, no exception
occurs: `parse_classlist` returns the empty list normally, and it is the
caller `get_classlist` that converts the zero-record outcome into
`D2LScraperException("No student data extracted")`. -/
theorem parse_empty_returned_to_caller (pages : Nat → Page)
    (h : ∀ i, i < 3 → ∃ trs, pages i = Page.table trs ∧
      trs.drop 1 ≠ [] ∧ parseRows (trs.drop 1) = []) :
    (parse_classlist pages).2 = Except.ok [] ∧
    get_classlist pages =
      Except.error (PyError.scraperException "No student data extracted") := by
  have hap : ∀ i, i < 3 → attemptParse (pages i) = Except.ok [] := by
    intro i hi
    obtain ⟨trs, hpg, hne, hpr⟩ := h i hi
    rw [hpg]
    simp only [attemptParse]
    rw [if_neg (by simpa using hne), hpr]
  have h1 : (parse_classlist pages).2 = Except.ok [] :=
    parseGo_all_empty pages 3 0 (fun i _ h2 => hap i (by omega))
  refine ⟨h1, ?_⟩
  rw [get_classlist, h1]
  rfl

/-- Witness for C5 at a page whose one data row has an empty email cell. -/
theorem parse_empty_returned_to_caller_witness :
    (parse_classlist droppedRowPages).2 = Except.ok [] ∧
    get_classlist droppedRowPages =
      Except.error (PyError.scraperException "No student data extracted") :=
  parse_empty_returned_to_caller droppedRowPages
    (fun i _ => ⟨[["h"], ["1", "pic", "Poe, Ann", "apoe", "9", "", "Student", "Dec 3, 2024"]],
      rfl, by decide, by decide⟩)



theorem waitAndClickGo_success (element : Nat → ClickOutcome) :
    ∀ m a rem, (∀ i, a ≤ i → i < a + m → element i ≠ ClickOutcome.success) →
      element (a + m) = ClickOutcome.success → m < rem →
      waitAndClickGo element a rem =
        ((List.range' a m).flatMap
            (fun i => [Step.sleep half, Step.clickAttempt i, Step.sleep 1])
          ++ [Step.sleep half, Step.clickAttempt (a + m)], true) := by
  intro m
  induction m with
  | zero =>
    intro a rem hfail hsucc hlt
    match rem, hlt with
    | rem' + 1, _ =>
      rw [waitAndClickGo]
      simp only [Nat.add_zero] at hsucc
      rw [hsucc]
      simp [List.range']
  | succ m ih =>
    intro a rem hfail hsucc hlt
    match rem, hlt with
    | rem' + 1, hlt =>
      have ha : element a ≠ ClickOutcome.success := hfail a (le_refl a) (by omega)
      have hrec := ih (a + 1) rem'
        (fun i h1 h2 => hfail i (by omega) (by omega))
        (by rw [show a + 1 + m = a + (m + 1) by omega]; exact hsucc)
        (by omega)
      rw [waitAndClickGo]
      cases he : element a
      case success => exact absurd he ha
      all_goals
        rw [if_neg (by omega : ¬rem' = 0)]
      all_goals
        dsimp only
      all_goals
        rw [hrec]
      all_goals
        rw [List.range'_succ, List.flatMap_cons]
      all_goals
        simp [show a + 1 + m = a + (m + 1) by omega]

theorem waitAndClickGo_fail (element : Nat → ClickOutcome) :
    ∀ rem a, rem ≠ 0 →
      (∀ i, a ≤ i → i < a + rem → element i ≠ ClickOutcome.success) →
      (waitAndClickGo element a rem).2 = false := by
  intro rem
  induction rem with
  | zero =>
    intro a h
    exact absurd rfl h
  | succ rem ih =>
    intro a _ hfail
    rw [waitAndClickGo]
    cases he : element a
    case success => exact absurd he (hfail a (le_refl a) (by omega))
    all_goals
      by_cases hr : rem = 0
    all_goals
      first
      | (rw [if_pos hr])
      | (rw [if_neg hr]
         exact ih (a + 1) hr (fun i h1 h2 => hfail i (by omega) (by omega)))

/-- C6 counterexample: the claim fails at k = 0.  An element that raises on
its first 0 attempts and succeeds on attempt 1 should, per the claim, make
`wait_and_click` with `retries = k = 0` raise after exhausting the budget;
instead the loop body never runs and the call returns normally, without
clicking. -/
theorem wait_and_click_zero_retries_counterexample :
    (∀ i, i < 0 → alwaysClickable i ≠ ClickOutcome.success) ∧
    alwaysClickable 0 = ClickOutcome.success ∧
    (wait_and_click alwaysClickable 0).2 = true ∧
    (wait_and_click alwaysClickable 0).1 = [] :=
  ⟨fun i h => absurd h (by omega), rfl, rfl, rfl⟩

/-- C6 (amended): for any element whose click raises a transient error on
its first k attempts (k at least 1) and succeeds on attempt k+1:
`wait_and_click` with `retries = k+1` or more returns normally, with a
1-time-unit backoff after each failed attempt (and the 0.5-unit
scroll-settling pause before each click), while `wait_and_click` with
`retries = k` re-raises the transient error after exhausting the retry
budget.  (With `retries = 0` the loop never runs and nothing is raised —
see the counterexample.) -/
theorem wait_and_click_retry_bound (element : Nat → ClickOutcome) (k : Nat)
    (hk : 1 ≤ k)
    (hfail : ∀ i, i < k → element i ≠ ClickOutcome.success)
    (hsucc : element k = ClickOutcome.success) :
    (∀ r, k + 1 ≤ r → (wait_and_click element r).2 = true) ∧
    (wait_and_click element (k + 1)).1 =
      (List.range k).flatMap
          (fun i => [Step.sleep half, Step.clickAttempt i, Step.sleep 1])
        ++ [Step.sleep half, Step.clickAttempt k] ∧
    (wait_and_click element k).2 = false := by
  have hs : ∀ r, k < r → waitAndClickGo element 0 r =
      ((List.range' 0 k).flatMap
          (fun i => [Step.sleep half, Step.clickAttempt i, Step.sleep 1])
        ++ [Step.sleep half, Step.clickAttempt (0 + k)], true) :=
    fun r hr => waitAndClickGo_success element k 0 r
      (fun i h1 h2 => hfail i (by omega)) (by simpa using hsucc) hr
  refine ⟨?_, ?_, ?_⟩
  · intro r hr
    rw [wait_and_click, hs r (by omega)]
  · rw [wait_and_click, hs (k + 1) (by omega)]
    rw [List.range_eq_range']
    simp
  · exact waitAndClickGo_fail element k 0 (by omega) (fun i h1 h2 => hfail i (by omega))

/-- Witness for the amended C6: an element stale on its first 2 click
attempts and clickable on the 3rd; `retries = 3` succeeds with the 1-unit
backoffs in the trace, `retries = 2` raises. -/
theorem wait_and_click_retry_bound_witness :
    (∀ r, 3 ≤ r → (wait_and_click staleTwiceElement r).2 = true) ∧
    (wait_and_click staleTwiceElement 3).1 =
      (List.range 2).flatMap
          (fun i => [Step.sleep half, Step.clickAttempt i, Step.sleep 1])
        ++ [Step.sleep half, Step.clickAttempt 2] ∧
    (wait_and_click staleTwiceElement 2).2 = false :=
  wait_and_click_retry_bound staleTwiceElement 2 (by omega) (by decide) (by decide)





theorem loadVerification_all_absent (appears : String → Bool) :
    ∀ l, (∀ s, s ∈ l → appears s = false) →
      loadVerification appears l =
        Except.error (PyError.authError "Failed to verify successful login to D2L") := by
  intro l
  induction l with
  | nil => intro _; rfl
  | cons s rest ih =>
    intro h
    rw [loadVerification, h s (List.mem_cons_self s rest)]
    simp only [Bool.false_eq_true, if_false]
    exact ih (fun t ht => h t (List.mem_cons_of_mem s ht))

theorem trySelectors_all_fail (env : NavEnv) :
    ∀ l, (∀ s, s ∈ l →
        env.selectorClick s = Except.error PyError.timeout ∨
        env.selectorClick s = Except.error PyError.noSuchElement ∨
        (env.selectorClick s = Except.ok () ∧
          waitFindSucceeds (env.tableTimeAfter s) 10 = false)) →
      trySelectors env l =
        Except.error (PyError.navError "Could not access classlist page") := by
  intro l
  induction l with
  | nil => intro _; rfl
  | cons s rest ih =>
    intro h
    have hrest := ih (fun t ht => h t (List.mem_cons_of_mem s ht))
    rw [trySelectors]
    rcases h s (List.mem_cons_self s rest) with h1 | h1 | ⟨h1, h2⟩
    · simp only [h1]
      exact hrest
    · simp only [h1]
      exact hrest
    · simp only [h1, h2]
      simp only [Bool.false_eq_true, if_false]
      exact hrest

/-- C7: every failure inside the login flow — zero MFA options, an
out-of-range MFA selection, a timeout at an authentication stage, failure
of all load-verification selectors — surfaces to the caller as
`AuthenticationError`, whose message carries the original cause.  The first
conjunct states it universally: whatever the environment, `login` either
returns normally or fails with `AuthenticationError`. -/
theorem login_failures_unified (env : LoginEnv) :
    ((∃ b, login env = Except.ok b) ∨
      (∃ e, login env = Except.error
        (PyError.authError ("Login failed: " ++ PyError.message e)))) ∧
    (env.emailStage = Except.ok () → env.passwordStage = Except.ok () →
      env.mfaProofsAppear = true → env.mfaOptions = [] →
      login env = Except.error (PyError.authError "Login failed: No MFA options found")) ∧
    (∀ n : Int, env.emailStage = Except.ok () → env.passwordStage = Except.ok () →
      env.mfaProofsAppear = true → env.mfaOptions ≠ [] →
      env.mfaChoiceInput = Except.ok n →
      (n - 1 < 0 ∨ (env.mfaOptions.length : Int) ≤ n - 1) →
      login env = Except.error
        (PyError.authError "Login failed: MFA selection failed: Invalid MFA option selected")) ∧
    (env.emailStage = Except.error PyError.timeout →
      login env = Except.error
        (PyError.authError ("Login failed: " ++ PyError.message PyError.timeout))) ∧
    (env.emailStage = Except.ok () → env.passwordStage = Except.ok () →
      env.mfaProofsAppear = false →
      login env = Except.error (PyError.authError "Login failed: MFA process failed")) ∧
    (env.emailStage = Except.ok () → env.passwordStage = Except.ok () →
      mfaStage env = Except.ok () → staySignedInStage env = Except.ok () →
      (∀ s, s ∈ successElements → env.d2lSelectorAppears s = false) →
      login env = Except.error
        (PyError.authError "Login failed: Failed to verify successful login to D2L")) := by
  refine ⟨?_, ?_, ?_, ?_, ?_, ?_⟩
  · cases hlb : loginBody env with
    | ok b => exact Or.inl ⟨b, by simp [login, hlb]⟩
    | error e => exact Or.inr ⟨e, by simp [login, hlb]⟩
  · intro he hp hm hopts
    have hbody : mfaStageBody env = Except.error (PyError.authError "No MFA options found") := by
      simp [mfaStageBody, hm, hopts]
    have hstage : mfaStage env = Except.error (PyError.authError "No MFA options found") := by
      simp [mfaStage, hbody]
    have hlb : loginBody env = Except.error (PyError.authError "No MFA options found") := by
      simp [loginBody, he, hp, hstage]
    simp [login, hlb, PyError.message]
  · intro n he hp hm hopts hchoice hrange
    have hne : ¬(env.mfaOptions.isEmpty = true) := by simpa using hopts
    have hbody : mfaStageBody env =
        Except.error (PyError.valueError "Invalid MFA option selected") := by
      simp only [mfaStageBody, hm, hchoice]
      rw [if_neg (by simp), if_neg hne]
      rw [if_pos hrange]
    have hstage : mfaStage env = Except.error
        (PyError.authError ("MFA selection failed: " ++ "Invalid MFA option selected")) := by
      simp [mfaStage, hbody]
    have hlb : loginBody env = Except.error
        (PyError.authError ("MFA selection failed: " ++ "Invalid MFA option selected")) := by
      simp [loginBody, he, hp, hstage]
    simp [login, hlb, PyError.message]
  · intro he
    have hlb : loginBody env = Except.error PyError.timeout := by
      simp [loginBody, he]
    simp [login, hlb]
  · intro he hp hm
    have hbody : mfaStageBody env = Except.error PyError.timeout := by
      simp [mfaStageBody, hm]
    have hstage : mfaStage env = Except.error (PyError.authError "MFA process failed") := by
      simp [mfaStage, hbody]
    have hlb : loginBody env = Except.error (PyError.authError "MFA process failed") := by
      simp [loginBody, he, hp, hstage]
    simp [login, hlb, PyError.message]
  · intro he hp hm hss hsel
    have hlv := loadVerification_all_absent env.d2lSelectorAppears successElements hsel
    have hlb : loginBody env =
        Except.error (PyError.authError "Failed to verify successful login to D2L") := by
      simp [loginBody, he, hp, hm, hss, hlv]
    simp [login, hlb, PyError.message]

/-- Witness for C7: with the MFA container present but zero option
elements, and separately with the MFA container never appearing, login
fails with the wrapped `AuthenticationError`. -/
theorem login_failures_unified_witness :
    login envZeroMfa =
      Except.error (PyError.authError "Login failed: No MFA options found") ∧
    login { envZeroMfa with mfaProofsAppear := false } =
      Except.error (PyError.authError "Login failed: MFA process failed") :=
  ⟨(login_failures_unified envZeroMfa).2.1 rfl rfl rfl rfl,
   (login_failures_unified { envZeroMfa with mfaProofsAppear := false }).2.2.2.2.1 rfl rfl rfl⟩

/-- C9: when the "Stay signed in?" prompt does not appear within its
10-time-unit wait, the stage completes without raising and the state
machine proceeds directly to load verification; when the prompt does
appear, it is clicked through.  Absence of the interstitial is never a
failure. -/
theorem stay_signed_in_optional (env : LoginEnv) :
    (waitFindSucceeds env.staySignedInTime 10 = false →
      staySignedInStage env = Except.ok ()) ∧
    (waitFindSucceeds env.staySignedInTime 10 = true →
      staySignedInStage env = env.staySignedInClick) ∧
    (env.emailStage = Except.ok () → env.passwordStage = Except.ok () →
      mfaStage env = Except.ok () →
      waitFindSucceeds env.staySignedInTime 10 = false →
      loginBody env = loadVerification env.d2lSelectorAppears successElements) := by
  refine ⟨?_, ?_, ?_⟩
  · intro h
    simp [staySignedInStage, h]
  · intro h
    simp [staySignedInStage, h]
  · intro he hp hm hw
    have hss : staySignedInStage env = Except.ok () := by
      simp [staySignedInStage, hw]
    simp [loginBody, he, hp, hm, hss]

/-- Witness for C9: a login run whose prompt never appears proceeds to load
verification and succeeds. -/
theorem stay_signed_in_optional_witness :
    staySignedInStage envHappyPath = Except.ok () ∧
    loginBody envHappyPath =
      loadVerification envHappyPath.d2lSelectorAppears successElements ∧
    login envHappyPath = Except.ok true := by
  obtain ⟨h1, _, h3⟩ := stay_signed_in_optional envHappyPath
  exact ⟨h1 rfl, h3 rfl rfl rfl rfl, rfl⟩

/-- C8: `navigate_to_classlist` returns immediately when the roster table
marker appears within 10 time-units of loading the derived direct URL; the
fallback tries the fixed selector list in order (link-text, menu-item text,
href substring), wins at the first selector that clicks successfully and is
followed by the marker, skips selectors that time out, are missing, or show
no marker; and when every strategy is exhausted it fails with
`NavigationError`. -/
theorem navigate_strategy (env : NavEnv) :
    (∀ t, env.directTableTime = some t → t ≤ 10 →
      navigate_to_classlist env = Except.ok ()) ∧
    classlistSelectors =
      ["//a[contains(text(), \x27Classlist\x27)]",
       "//d2l-menu-item-link[contains(@text, \x27Classlist\x27)]",
       "//a[contains(@href, \x27classlist.d2l\x27)]"] ∧
    (∀ s rest, env.selectorClick s = Except.ok () →
      waitFindSucceeds (env.tableTimeAfter s) 10 = true →
      trySelectors env (s :: rest) = Except.ok ()) ∧
    (∀ s rest, env.selectorClick s = Except.ok () →
      waitFindSucceeds (env.tableTimeAfter s) 10 = false →
      trySelectors env (s :: rest) = trySelectors env rest) ∧
    (∀ s rest, env.selectorClick s = Except.error PyError.timeout ∨
        env.selectorClick s = Except.error PyError.noSuchElement →
      trySelectors env (s :: rest) = trySelectors env rest) ∧
    (waitFindSucceeds env.directTableTime 10 = false →
      env.navGroupClick = Except.ok () →
      trySelectors env classlistSelectors = Except.ok () →
      navigate_to_classlist env = Except.ok ()) ∧
    (waitFindSucceeds env.directTableTime 10 = false →
      env.navGroupClick = Except.ok () →
      (∀ s, s ∈ classlistSelectors →
        env.selectorClick s = Except.error PyError.timeout ∨
        env.selectorClick s = Except.error PyError.noSuchElement ∨
        (env.selectorClick s = Except.ok () ∧
          waitFindSucceeds (env.tableTimeAfter s) 10 = false)) →
      navigate_to_classlist env =
        Except.error (PyError.navError
          "Failed to navigate to classlist: Could not access classlist page")) := by
  refine ⟨?_, rfl, ?_, ?_, ?_, ?_, ?_⟩
  · intro t ht hle
    have hw : waitFindSucceeds env.directTableTime 10 = true := by
      simp [waitFindSucceeds, ht, hle]
    simp [navigate_to_classlist, navigateBody, hw]
  · intro s rest h1 h2
    rw [trySelectors]
    simp only [h1, h2, if_true]
  · intro s rest h1 h2
    rw [trySelectors]
    simp only [h1, h2, Bool.false_eq_true, if_false]
  · intro s rest h
    rcases h with h | h
    · rw [trySelectors]
      simp only [h]
    · rw [trySelectors]
      simp only [h]
  · intro hw hng hts
    simp [navigate_to_classlist, navigateBody, hw, hng, hts]
  · intro hw hng hall
    have hts := trySelectors_all_fail env classlistSelectors hall
    simp [navigate_to_classlist, navigateBody, hw, hng, hts, PyError.message]

/-- Witness for C8: direct navigation succeeds when the marker appears
after 3 units; with no marker ever and every selector click timing out,
the call fails with the wrapped `NavigationError`. -/
theorem navigate_strategy_witness :
    navigate_to_classlist envNavDirect = Except.ok () ∧
    navigate_to_classlist envNavExhausted =
      Except.error (PyError.navError
        "Failed to navigate to classlist: Could not access classlist page") :=
  ⟨(navigate_strategy envNavDirect).1 3 rfl (by omega),
   (navigate_strategy envNavExhausted).2.2.2.2.2.2 rfl rfl (fun s _ => Or.inl rfl)⟩
